import Mathlib

/-!
Shallow embedding of the fireblocks/change-authorities pipeline.

Sources embedded (TypeScript):
- `src/utils.ts` (`processBatchedTransactions`, batch slicing loop);
- `src/solanaSerializer.ts` (`buildBatchChangeAuthoritiesTx`,
  `buildInactiveAccountsWithdrawTx`, `sendSignedTransaction`);
- `src/fireblocksSigner.ts` (`waitForSignature`, `signTransaction`);
- `src/solanaAuthorityOrchestrator.ts` (constructor, `validateEnvironment`,
  `changeAuthorities`, `withdrawFromInactiveAccounts`);
- `src/service/solscanService.ts` (the per-item transformation applied to the
  Solscan response, including status lowercasing);
- the earlier orchestrator variant whose `changeAuthorities` correlates signed
  messages back to pending transactions through a content-keyed map.

Modelling conventions:
- JS strings are `String`; a missing/undefined string-valued field is `Option
  String` (with `none` for `undefined`) or, where the source only ever tests JS
  truthiness, the empty string `""`.
- Lamport balances are `Int` (they are integral in the data; the subtraction in
  the withdraw builder can go negative, which `Int` represents exactly).
- Network and cryptographic collaborators (address resolution, account
  listing, blockhash fetch, transaction byte-encoding, signature verification,
  raw-transaction submission, the Fireblocks REST round-trips) are out-of-scope
  black boxes; they appear as function-valued fields of environment records,
  and each outbound call the orchestrator makes is recorded as a `NetEvent` in
  an event trace so that "before any network call" is a statement about the
  trace.
- Thrown JS exceptions become `Except.error msg` carrying the thrown message;
  a `catch` that logs and falls through to `undefined` becomes a match that
  maps `Except.error _` to `none`.
-/

/-- One stake account as the orchestrator sees it after the Solscan
transformation.  `pubkey` is `pubkey.address`; `none` models the pubkey (or its
`address` field) being absent, `some ""` an empty address, so that the
orchestrator's truthiness test `account.pubkey && account.pubkey.address` is
`isValidAccount`.  The `delegated_stake_amount` / `total_reward` fields
(parsed via `parseFloat` in the service and used by no embedded operation) are
omitted. -/
structure StakeAccount where
  pubkey : Option String
  status : String
  lamports : Int
  sol_balance : Int
  deriving Repr, DecidableEq

/-- The orchestrator's validity filter for the change-authority path:
`account.pubkey && account.pubkey.address` (JS truthiness: the pubkey object
exists and the address is a non-empty string). -/
def isValidAccount (a : StakeAccount) : Bool :=
  match a.pubkey with
  | none => false
  | some addr => addr != ""

/-- One raw item of the Solscan `/account/stake` response
(`src/service/solscanService.ts`).  String fields that the service guards with
truthiness checks are `Option String`. -/
structure SolscanItem where
  stake_account : String
  sol_balance : Int
  status : Option String
  deriving Repr, DecidableEq

/-- `String.prototype.toLowerCase()` on the ASCII identifiers and status
strings this tool handles, as a structurally computable map over the
characters. -/
def lowerString (s : String) : String := ⟨s.data.map Char.toLower⟩

/-- The transformation `solscanService.getStakeAccountsForAddress` applies to
each response item: `pubkey.address := stake_account`, `lamports :=
sol_balance`, and `status := account.status ? account.status.toLowerCase() :
""`.  (`lowerString (it.status.getD "")` equals that conditional for
`undefined`, `""`, and non-empty strings alike.) -/
def transformSolscanAccount (it : SolscanItem) : StakeAccount :=
  { pubkey := some it.stake_account
    status := lowerString (it.status.getD "")
    lamports := it.sol_balance
    sol_balance := it.sol_balance }

/-- `MAX_ACCOUNTS_PER_AUTHORITY_TX` in `solanaAuthorityOrchestrator.ts`. -/
def MAX_ACCOUNTS_PER_AUTHORITY_TX : Nat := 6

/-- `MAX_ACCOUNTS_PER_WITHDRAW_TX` in `solanaAuthorityOrchestrator.ts`. -/
def MAX_ACCOUNTS_PER_WITHDRAW_TX : Nat := 4

/-- Fuel-indexed worker for `chunkList`; the fuel is only there to make the
recursion structural (each slice removes at least one element, so an initial
fuel of `l.length` is always enough — `chunkListAux_fuel` below). -/
def chunkListAux (n : Nat) : Nat → List α → List (List α)
  | _, [] => []
  | 0, _ :: _ => []
  | fuel + 1, x :: xs =>
    match n with
    | 0 => []
    | m + 1 => (x :: xs).take (m + 1) :: chunkListAux n fuel ((x :: xs).drop (m + 1))

/-- The batch slicing loop of `processBatchedTransactions`
(`for (let i = 0; i < items.length; i += batchSize) push(items.slice(i, i +
batchSize))`).  For `batchSize = 0` the JS loop would not terminate; both call
sites pass the positive constants 6 and 4, and the `0` case here returns `[]`
as an out-of-domain placeholder. -/
def chunkList (n : Nat) (l : List α) : List (List α) := chunkListAux n l.length l

/-- Outbound calls the pipeline makes to its collaborators, recorded in order.
"Before any network call" is then a statement about this trace. -/
inductive NetEvent
  | resolveAddress (vaultAccountId : String)
  | fetchStakeAccounts (address : String)
  | signRequest (contents : List String)
  | broadcast (rawTx : String)
  deriving Repr, DecidableEq

/-- The record a per-batch processor returns on success
(`{ txHash, status, errorMessage? }` in `processBatchedTransactions`'s
callback type). -/
structure TxInfo where
  txHash : String
  status : String
  errorMessage : Option String
  deriving Repr, DecidableEq

/-- One row of `processBatchedTransactions`' `results` array.  The
`timestamp` field (`new Date().toISOString()`, wall clock, out of scope) is
omitted. -/
structure GroupResult where
  items : List String
  txHash : Option String
  status : String
  errorMessage : Option String
  deriving Repr, DecidableEq

/-- Aggregate output of `processBatchedTransactions`. -/
structure BatchTotals where
  results : List GroupResult
  totalSuccessCount : Nat
  totalFailureCount : Nat
  deriving Repr, DecidableEq

/-- The result row pushed on the success path of the batch loop (note: the
source pushes `{items, txHash, status, timestamp}` — no `errorMessage`, even
when the processor returned one). -/
def successResult (getItemIdentifier : α → String) (batch : List α) (info : TxInfo) :
    GroupResult :=
  { items := batch.map getItemIdentifier
    txHash := some info.txHash
    status := info.status
    errorMessage := none }

/-- The result row pushed on the catch path of the batch loop.  The JS error
object's `message` (with transaction logs appended when present) is modelled
as the error's message string. -/
def failureResult (getItemIdentifier : α → String) (batch : List α) (msg : String) :
    GroupResult :=
  { items := batch.map getItemIdentifier
    txHash := none
    status := "Failed"
    errorMessage := some msg }

/-- The `for (batchIndex …)` loop of `processBatchedTransactions`
(`src/utils.ts`): each batch is processed inside a try/catch; a success pushes
a row built from the processor's return, a thrown error pushes a `"Failed"`
row for the same batch, and in both cases the loop continues with the next
batch.  The processor also reports the outbound calls it made, which are
concatenated into the run's event trace. -/
def runBatchLoop (processTransaction : List α → Except String TxInfo × List NetEvent)
    (getItemIdentifier : α → String) : List (List α) → BatchTotals × List NetEvent
  | [] => (⟨[], 0, 0⟩, [])
  | batch :: rest =>
    let step := processTransaction batch
    let tail := runBatchLoop processTransaction getItemIdentifier rest
    match step.1 with
    | .ok info =>
      (⟨successResult getItemIdentifier batch info :: tail.1.results,
        batch.length + tail.1.totalSuccessCount, tail.1.totalFailureCount⟩,
       step.2 ++ tail.2)
    | .error msg =>
      (⟨failureResult getItemIdentifier batch msg :: tail.1.results,
        tail.1.totalSuccessCount, batch.length + tail.1.totalFailureCount⟩,
       step.2 ++ tail.2)

/-- `processBatchedTransactions` (`src/utils.ts`): slice `items` into batches
of `batchSize`, then run the batch loop. -/
def processBatchedTransactions (items : List α) (batchSize : Nat)
    (processTransaction : List α → Except String TxInfo × List NetEvent)
    (getItemIdentifier : α → String) : BatchTotals × List NetEvent :=
  runBatchLoop processTransaction getItemIdentifier (chunkList batchSize items)

/-- The row the batch loop records for one batch, as a function of that batch
alone (used to state that each group's outcome is independent of the others). -/
def batchOutcome (processTransaction : List α → Except String TxInfo × List NetEvent)
    (getItemIdentifier : α → String) (batch : List α) : GroupResult :=
  match (processTransaction batch).1 with
  | .ok info => successResult getItemIdentifier batch info
  | .error msg => failureResult getItemIdentifier batch msg

/-- `StakeAuthorizationLayout.Staker` / `.Withdrawer`. -/
inductive StakeAuthorization
  | staker
  | withdrawer
  deriving Repr, DecidableEq

/-- One `StakeProgram.authorize` instruction. -/
structure AuthorizeInstruction where
  stakePubkey : String
  authorizedPubkey : String
  newAuthorizedPubkey : String
  stakeAuthorizationKind : StakeAuthorization
  deriving Repr, DecidableEq

/-- One `StakeProgram.withdraw` instruction. -/
structure WithdrawInstruction where
  stakePubkey : String
  authorizedPubkey : String
  toPubkey : String
  lamports : Int
  deriving Repr, DecidableEq

/-- An unsigned `web3.Transaction` being assembled: fee payer, the fetched
blockhash, and the added instructions in order. -/
structure BuiltTx (ι : Type) where
  feePayer : String
  recentBlockhash : String
  instructions : List ι
  deriving Repr, DecidableEq

/-- `SolanaSerializer.buildBatchChangeAuthoritiesTx`: for each stake account,
two `authorize` instructions (staker then withdrawer) from the current to the
new authority; fee payer is the current authority. -/
def buildBatchChangeAuthoritiesTx (stakeAccounts : List String)
    (currentAuthorized newAuthorized : String) (blockhash : String) :
    BuiltTx AuthorizeInstruction :=
  { feePayer := currentAuthorized
    recentBlockhash := blockhash
    instructions := stakeAccounts.flatMap (fun stakeAccount =>
      [ ⟨stakeAccount, currentAuthorized, newAuthorized, .staker⟩,
        ⟨stakeAccount, currentAuthorized, newAuthorized, .withdrawer⟩ ]) }

/-- `SolanaSerializer.buildInactiveAccountsWithdrawTx`: for each account one
`withdraw` instruction of `sol_balance - 3000000` lamports ("Leave for rent
exemption") to the authority itself.  The source adds the instruction
unconditionally — there is no check that the amount is positive. -/
def buildInactiveAccountsWithdrawTx (stakeAccountsInfo : List StakeAccount)
    (authority : String) (blockhash : String) : BuiltTx WithdrawInstruction :=
  { feePayer := authority
    recentBlockhash := blockhash
    instructions := stakeAccountsInfo.map (fun accountInfo =>
      { stakePubkey := accountInfo.pubkey.getD ""
        authorizedPubkey := authority
        toPubkey := authority
        lamports := accountInfo.sol_balance - 3000000 }) }

/-- A reconstructed transaction with attached signatures
(`Transaction.populate` + `addSignature`): the serialized message it was
rebuilt from and the `(signer, signature)` pairs added to it. -/
structure PopulatedTx where
  messageHex : String
  signatures : List (String × String)
  deriving Repr, DecidableEq

/-- One element of Fireblocks' `signedMessages`. -/
structure SignedMsg where
  content : Option String
  fullSig : Option String
  deriving Repr, DecidableEq

/-- The signed-transaction response the orchestrator consumes
(`signedMessages` may be absent). -/
structure SignatureResponse where
  signedMessages : Option (List SignedMsg)
  deriving Repr, DecidableEq

/-- The out-of-scope collaborators of one orchestrator run, as black-box
functions: vault-address resolution (`none` = lookup failed / returned
nothing, since `getAddressForVault` catches and returns `undefined`), the
account-listing service (already Solscan-transformed), the blockhash fetch
(one run-constant value suffices for the embedded claims), the byte encoders
(`serializeMessage` / `serialize`), the Fireblocks signing round-trip, the
signature verifier, and raw submission. -/
structure RunEnv where
  addressForVault : String → Option String
  stakeAccountsFor : String → List StakeAccount
  latestBlockhash : String
  encodeAuthorityTx : BuiltTx AuthorizeInstruction → String
  encodeWithdrawTx : BuiltTx WithdrawInstruction → String
  fireblocksSign : String → List String → Except String SignatureResponse
  verifySignatures : PopulatedTx → Bool
  encodeSignedTx : PopulatedTx → String
  sendRawTransaction : String → Except String String

/-- `Message.from` + `Transaction.populate` + `addSignature`: rebuild the
transaction from the serialized message and attach the one signature. -/
def populateWithSignature (serializedMessage signatureHex signerPubKey : String) :
    PopulatedTx :=
  { messageHex := serializedMessage, signatures := [(signerPubKey, signatureHex)] }

/-- `SolanaSerializer.sendSignedTransaction`: reconstruct, attach the
signature, `verifySignatures()`; on failure throw
`'Transaction signature verification failed'` without submitting anything; on
success `sendRawTransaction` the serialized signed transaction. -/
def sendSignedTransaction (env : RunEnv)
    (serializedMessage signatureHex signerPubKey : String) :
    Except String String × List NetEvent :=
  let transaction := populateWithSignature serializedMessage signatureHex signerPubKey
  if env.verifySignatures transaction then
    let raw := env.encodeSignedTx transaction
    (env.sendRawTransaction raw, [NetEvent.broadcast raw])
  else
    (.error "Transaction signature verification failed", [])

/-- The per-batch closure `changeAuthorities` passes to
`processBatchedTransactions` (build → sign → validate response → broadcast;
any failure is thrown and caught by the batch loop). -/
def authorityBatchClosure (env : RunEnv)
    (currentAuthorityVaultId existingAuthorityAddress newAuthorityAddress : String)
    (batch : List StakeAccount) : Except String TxInfo × List NetEvent :=
  let pubkeys := batch.map (fun account => account.pubkey.getD "")
  let built := buildBatchChangeAuthoritiesTx pubkeys existingAuthorityAddress
    newAuthorityAddress env.latestBlockhash
  let serializedTransaction := env.encodeAuthorityTx built
  let signEvent := NetEvent.signRequest [serializedTransaction]
  match env.fireblocksSign currentAuthorityVaultId [serializedTransaction] with
  | .error e => (.error e, [signEvent])
  | .ok signatureResponse =>
    match signatureResponse.signedMessages with
    | none => (.error "No signed messages returned from Fireblocks", [signEvent])
    | some [] => (.error "No signed messages returned from Fireblocks", [signEvent])
    | some (signedMessage :: _) =>
      match signedMessage.fullSig with
      | none => (.error "Missing signature from Fireblocks", [signEvent])
      | some signatureHex =>
        let sent := sendSignedTransaction env serializedTransaction signatureHex
          existingAuthorityAddress
        match sent.1 with
        | .ok txId => (.ok ⟨txId, "Success", none⟩, signEvent :: sent.2)
        | .error e => (.error e, signEvent :: sent.2)

/-- The per-batch closure `withdrawFromInactiveAccounts` passes to
`processBatchedTransactions`. -/
def withdrawBatchClosure (env : RunEnv)
    (currentAuthorityVaultId authorityAddress : String)
    (batch : List StakeAccount) : Except String TxInfo × List NetEvent :=
  let built := buildInactiveAccountsWithdrawTx batch authorityAddress env.latestBlockhash
  let serializedTransaction := env.encodeWithdrawTx built
  let signEvent := NetEvent.signRequest [serializedTransaction]
  match env.fireblocksSign currentAuthorityVaultId [serializedTransaction] with
  | .error e => (.error e, [signEvent])
  | .ok signatureResponse =>
    match signatureResponse.signedMessages with
    | none => (.error "No signed messages returned from Fireblocks", [signEvent])
    | some [] => (.error "No signed messages returned from Fireblocks", [signEvent])
    | some (signedMessage :: _) =>
      match signedMessage.fullSig with
      | none => (.error "Missing signature from Fireblocks", [signEvent])
      | some signatureHex =>
        let sent := sendSignedTransaction env serializedTransaction signatureHex
          authorityAddress
        match sent.1 with
        | .ok txId => (.ok ⟨txId, "Success", none⟩, signEvent :: sent.2)
        | .error e => (.error e, signEvent :: sent.2)

/-- Models `parseInt` on a vault-id string: `none` is JS `NaN`.  (For the
canonical decimal ids this tool is configured with, `parseInt` and full
decimal parsing agree; written over the character list so closed instances
evaluate.) -/
def parseIntNat (s : String) : Option Nat :=
  if s.data ≠ [] ∧ s.data.all Char.isDigit then
    some (s.data.foldl (fun n c => n * 10 + (c.toNat - 48)) 0)
  else none

/-- JS `>` on two `parseInt` results: any comparison with `NaN` is false. -/
def natOptGt : Option Nat → Option Nat → Bool
  | some a, some b => b < a
  | _, _ => false

/-- JS `===` on two `parseInt` results: `NaN === NaN` is false. -/
def natOptEq : Option Nat → Option Nat → Bool
  | some a, some b => a == b
  | _, _ => false

/-- `SolanaAuthorityOrchestrator.changeAuthorities`
(`src/solanaAuthorityOrchestrator.ts`): vault-id ordering checks, resolve both
authorities, list stake accounts, reject empty / all-invalid sets, then run
the batch pipeline with cap `MAX_ACCOUNTS_PER_AUTHORITY_TX`.  Returns the
`results` handed to the CSV sink, or the thrown fatal error, together with
the outbound-call trace. -/
def changeAuthorities (env : RunEnv)
    (currentAuthorityVaultId newAuthorityVaultId : String) :
    Except String (List GroupResult) × List NetEvent :=
  if natOptGt (parseIntNat currentAuthorityVaultId) (parseIntNat newAuthorityVaultId) then
    (.error "New authority vault account has to be a newer account than the current authority vault account",
     [])
  else if natOptEq (parseIntNat currentAuthorityVaultId) (parseIntNat newAuthorityVaultId) then
    (.error "New authority vault account has to be a different account than the current authority vault account",
     [])
  else
    match env.addressForVault currentAuthorityVaultId with
    | none =>
      (.error ("No existing authority found for vault ID: " ++ currentAuthorityVaultId),
       [NetEvent.resolveAddress currentAuthorityVaultId])
    | some existingAuthorityAddress =>
      match env.addressForVault newAuthorityVaultId with
      | none =>
        (.error ("No new authority found for vault ID: " ++ newAuthorityVaultId),
         [NetEvent.resolveAddress currentAuthorityVaultId,
          NetEvent.resolveAddress newAuthorityVaultId])
      | some newAuthorityAddress =>
        let evs := [NetEvent.resolveAddress currentAuthorityVaultId,
                    NetEvent.resolveAddress newAuthorityVaultId,
                    NetEvent.fetchStakeAccounts existingAuthorityAddress]
        let stakeAccounts := env.stakeAccountsFor existingAuthorityAddress
        if stakeAccounts.length = 0 then
          (.error ("No stake accounts found for address: " ++ existingAuthorityAddress), evs)
        else
          let validStakeAccounts := stakeAccounts.filter isValidAccount
          if validStakeAccounts.length = 0 then
            (.error "No valid stake accounts found", evs)
          else
            let out := processBatchedTransactions validStakeAccounts
              MAX_ACCOUNTS_PER_AUTHORITY_TX
              (authorityBatchClosure env currentAuthorityVaultId
                existingAuthorityAddress newAuthorityAddress)
              (fun account => account.pubkey.getD "")
            (.ok out.1.results, evs ++ out.2)

/-- `SolanaAuthorityOrchestrator.withdrawFromInactiveAccounts`: resolve the
authority, list stake accounts, reject an empty listing, keep only accounts
with `status === "inactive"`; when none remain, log and return normally
(producing no results); otherwise run the batch pipeline with cap
`MAX_ACCOUNTS_PER_WITHDRAW_TX`. -/
def withdrawFromInactiveAccounts (env : RunEnv) (currentAuthorityVaultId : String) :
    Except String (List GroupResult) × List NetEvent :=
  match env.addressForVault currentAuthorityVaultId with
  | none =>
    (.error ("No authority found for vault ID: " ++ currentAuthorityVaultId),
     [NetEvent.resolveAddress currentAuthorityVaultId])
  | some authorityAddress =>
    let evs := [NetEvent.resolveAddress currentAuthorityVaultId,
                NetEvent.fetchStakeAccounts authorityAddress]
    let stakeAccounts := env.stakeAccountsFor authorityAddress
    if stakeAccounts.length = 0 then
      (.error ("No stake accounts found for address: " ++ authorityAddress), evs)
    else
      let inactiveAccounts := stakeAccounts.filter (fun account => account.status == "inactive")
      if inactiveAccounts.length = 0 then
        (.ok [], evs)
      else
        let out := processBatchedTransactions inactiveAccounts
          MAX_ACCOUNTS_PER_WITHDRAW_TX
          (withdrawBatchClosure env currentAuthorityVaultId authorityAddress)
          (fun account => account.pubkey.getD "")
        (.ok out.1.results, evs ++ out.2)

/-- The environment-derived configuration the constructor and
`validateEnvironment` consult.  `""` models an unset variable (the source
tests JS truthiness); `secretFileFound` is `fs.existsSync`, a black box. -/
structure EnvConfig where
  operation : String
  fireblocksApiKey : String
  fireblocksApiSecretPath : String
  solscanApiKey : String
  secretFileFound : String → Bool

def requiredEnvVars : List String :=
  ["FIREBLOCKS_API_KEY", "FIREBLOCKS_API_SECRET_PATH", "SOLSCAN_API_KEY"]

def envVarValue (env : EnvConfig) : String → String
  | "FIREBLOCKS_API_KEY" => env.fireblocksApiKey
  | "FIREBLOCKS_API_SECRET_PATH" => env.fireblocksApiSecretPath
  | "SOLSCAN_API_KEY" => env.solscanApiKey
  | _ => ""

/-- `validateEnvironment`: reject when any required variable is unset; then
the secret-file existence check, whose thrown error is caught by the
function's own try/catch and rethrown wrapped in
`Error checking Fireblocks API secret file: …`. -/
def validateEnvironment (env : EnvConfig) : Except String Unit :=
  let missingVars := requiredEnvVars.filter (fun varName => envVarValue env varName = "")
  if 0 < missingVars.length then
    .error ("Missing required environment variables: " ++ String.intercalate ", " missingVars)
  else
    let apiSecretPath := env.fireblocksApiSecretPath
    if env.secretFileFound apiSecretPath then
      .ok ()
    else
      .error ("Error checking Fireblocks API secret file: " ++
        ("Fireblocks API secret file not found at path: " ++ apiSecretPath))

/-- The `SolanaAuthorityOrchestrator` constructor's validation: the current
vault id is required only when `OPERATION` is `withdraw`, the new vault id
only when it is `change-authority`; then `validateEnvironment`.  (The
subsequent instantiation of the signer and serializer performs no validation
relevant to the claims and no network call.) -/
def orchestratorConstruct (currentAuthorityVaultId newAuthorityVaultId : String)
    (env : EnvConfig) : Except String Unit :=
  if currentAuthorityVaultId = "" ∧ lowerString env.operation = "withdraw" then
    .error "Current authority vault ID is required"
  else if newAuthorityVaultId = "" ∧ lowerString env.operation = "change-authority" then
    .error "New authority vault ID is required"
  else
    validateEnvironment env

/-- The Fireblocks transaction states the signer inspects
(`TransactionStateEnum`); every state other than the six the source names is
represented by `pending` with its wire label. -/
inductive TxState
  | completed
  | broadcasting
  | blocked
  | cancelled
  | failed
  | rejected
  | pending (label : String)
  deriving Repr, DecidableEq

def stateText : TxState → String
  | .completed => "COMPLETED"
  | .broadcasting => "BROADCASTING"
  | .blocked => "BLOCKED"
  | .cancelled => "CANCELLED"
  | .failed => "FAILED"
  | .rejected => "REJECTED"
  | .pending label => label

/-- One `getTransaction` response body: id, status, sub-status and (when
present) the signed messages. -/
structure TxPollData where
  id : String
  status : TxState
  subStatus : String
  signedMessages : Option (List SignedMsg)
  deriving Repr, DecidableEq

/-- The `while` condition's complement: the two success terminal states. -/
def isSuccessTerminal (s : TxState) : Bool :=
  s == .completed || s == .broadcasting

/-- The four failure terminal states of the `switch`. -/
def isFailureTerminal (s : TxState) : Bool :=
  s == .blocked || s == .cancelled || s == .failed || s == .rejected

/-- The error message `waitForSignature` throws when a refetched status is a
failure terminal state — it carries the resolver's sub-status text. -/
def terminalFailureMessage (r : TxPollData) : String :=
  "Signing request failed/blocked/cancelled: Transaction: " ++ r.id ++
    " status is " ++ stateText r.status ++ "\nSub-Status: " ++ r.subStatus

/-- The polling loop of `waitForSignature` over the successive `getTransaction`
responses: exit with the current response once it is success-terminal;
otherwise refetch, throw `terminalFailureMessage` if the refetched status is
failure-terminal, and iterate.  The source loop has no retry bound; `rest` is
the finite stream of responses actually observed, and running out of it (which
no embedded claim exercises) maps to an error the surrounding catch swallows
like any other. -/
def pollLoop : TxPollData → List TxPollData → Except String TxPollData
  | cur, rest =>
    if isSuccessTerminal cur.status then .ok cur
    else
      match rest with
      | [] => .error "polling responses exhausted"
      | next :: rest' =>
        if isFailureTerminal next.status then .error (terminalFailureMessage next)
        else pollLoop next rest'

/-- `waitForSignature` (`src/fireblocksSigner.ts`): the whole body sits in a
try/catch whose catch only logs — a missing transaction id, and any error the
poll loop throws (including the failure-terminal one), become `undefined`. -/
def waitForSignature (createdTxId : String) (responses : List TxPollData) :
    Option TxPollData :=
  if createdTxId = "" then none
  else
    match responses with
    | [] => none
    | first :: rest =>
      match pollLoop first rest with
      | .ok r => some r
      | .error _ => none

/-- `signTransaction` (`src/fireblocksSigner.ts`): create the raw-signing
request (`createResult` is the outcome of `createTransaction`, an error there
is rethrown), wait for the signature, and throw the generic
`Transaction response is undefined` when `waitForSignature` yields `undefined`
or a response with no `signedMessages`. -/
def signTransaction (createResult : Except String String)
    (responses : List TxPollData) : Except String TxPollData :=
  match createResult with
  | .error e => .error e
  | .ok createdTxId =>
    match waitForSignature createdTxId responses with
    | none => .error "Transaction response is undefined"
    | some txResponse =>
      match txResponse.signedMessages with
      | none => .error "Transaction response is undefined"
      | some _ => .ok txResponse

/-- `leadsWith sub l`: `sub` is an initial run of `l` (character lists). -/
def leadsWith : List Char → List Char → Bool
  | [], _ => true
  | _ :: _, [] => false
  | a :: as, b :: bs => a == b && leadsWith as bs

/-- `chunkOccurs sub l`: `sub` occurs contiguously somewhere in `l`. -/
def chunkOccurs (sub : List Char) : List Char → Bool
  | [] => sub.isEmpty
  | b :: bs => leadsWith sub (b :: bs) || chunkOccurs sub bs

/-- `strOccurs sub s`: the string `sub` occurs contiguously in `s` ("the
message carries the sub-status text"). -/
def strOccurs (sub s : String) : Bool := chunkOccurs sub.data s.data

/-- An entry of the earlier orchestrator variant's `txDataMap`: the pending
transaction data stored under its serialized content (the
`web3.Transaction` object itself carries no information the correlation step
reads, so only the two string fields appear). -/
structure TxMapEntry where
  serializedTransaction : String
  stakeAccountPubKey : String
  deriving Repr, DecidableEq

/-- One entry of that variant's `results` array (`status` is `'fulfilled'` or
`'rejected'`). -/
structure SettledResult where
  status : String
  reason : Option String
  value : Option String
  deriving Repr, DecidableEq

/-- The body of the per-signed-message loop in the earlier variant's
`changeAuthorities`: take the returned content, look it up in `txDataMap` by
exact string equality (a JS `Map` keyed by the serialized content, modelled as
an association list), check the signature is present, and broadcast via
`sendSignedTransaction`; each guard failure records a `'rejected'` row with
its reason and the loop `continue`s. -/
def settleMessage (txDataMap : List (String × TxMapEntry))
    (send : String → String → Except String String) (m : SignedMsg) : SettledResult :=
  match m.content with
  | none => { status := "rejected", reason := some "Missing content", value := none }
  | some txContent =>
    match txDataMap.lookup txContent with
    | none => { status := "rejected", reason := some "No matching transaction data", value := none }
    | some txData =>
      match m.fullSig with
      | none => { status := "rejected", reason := some "Missing signature", value := none }
      | some signatureHex =>
        match send txData.serializedTransaction signatureHex with
        | .ok txId => { status := "fulfilled", reason := none, value := some txId }
        | .error e => { status := "rejected", reason := some e, value := none }

/-- The `for (const signedMessage of …signedMessages)` loop: one settled row
per returned message, with the running success/failure counters. -/
def settleLoop (txDataMap : List (String × TxMapEntry))
    (send : String → String → Except String String) :
    List SignedMsg → List SettledResult × Nat × Nat
  | [] => ([], 0, 0)
  | m :: ms =>
    let r := settleMessage txDataMap send m
    let rest := settleLoop txDataMap send ms
    (r :: rest.1,
     (if r.status = "fulfilled" then 1 else 0) + rest.2.1,
     (if r.status = "rejected" then 1 else 0) + rest.2.2)

/-- The earlier variant's response handling around that loop: reject an
absent/empty `signedMessages`; when the returned count differs from the
submitted count, push a `console.warn` line and carry on; then settle every
returned message.  Returns the settled rows and the warnings — the function
itself returns normally (`.ok`) whenever signatures were returned at all. -/
def correlateAndBroadcast (txDataMap : List (String × TxMapEntry))
    (submittedCount : Nat) (resp : SignatureResponse)
    (send : String → String → Except String String) :
    Except String (List SettledResult × List String) :=
  match resp.signedMessages with
  | none => .error "No signed messages returned from Fireblocks"
  | some [] => .error "No signed messages returned from Fireblocks"
  | some msgs =>
    let warnings :=
      if msgs.length ≠ submittedCount then
        ["Warning: Received " ++ toString msgs.length ++ " signatures but sent " ++
          toString submittedCount ++ " transactions"]
      else []
    .ok ((settleLoop txDataMap send msgs).1, warnings)

/-- A benign concrete environment for closed runs: every collaborator total
and deterministic. -/
def inertEnv : RunEnv :=
  { addressForVault := fun _ => some "AuthorityAddr"
    stakeAccountsFor := fun _ => []
    latestBlockhash := "Blockhash1"
    encodeAuthorityTx := fun _ => "authorityTxBytes"
    encodeWithdrawTx := fun _ => "withdrawTxBytes"
    fireblocksSign := fun _ _ => .error "signing unavailable"
    verifySignatures := fun _ => true
    encodeSignedTx := fun _ => "signedTxBytes"
    sendRawTransaction := fun _ => .ok "txid" }

def activeAccount : StakeAccount :=
  { pubkey := some "Stake1", status := "active", lamports := 5000000, sol_balance := 5000000 }

def envWithActiveOnly : RunEnv :=
  { inertEnv with stakeAccountsFor := fun _ => [activeAccount] }

def invalidAccount : StakeAccount :=
  { pubkey := none, status := "active", lamports := 0, sol_balance := 0 }

def envWithInvalidOnly : RunEnv :=
  { inertEnv with stakeAccountsFor := fun _ => [invalidAccount] }

/-- An inactive account whose balance is below the 3000000-lamport reserve. -/
def c1Account : StakeAccount :=
  { pubkey := some "Stake2", status := "inactive", lamports := 2000000, sol_balance := 2000000 }

def c2First : TxPollData :=
  { id := "tx1", status := .pending "SUBMITTED", subStatus := "", signedMessages := none }

def c2Blocked : TxPollData :=
  { id := "tx1", status := .blocked, subStatus := "LOGIC_ERROR", signedMessages := none }

def c2Account : StakeAccount :=
  { pubkey := some "Stake9", status := "inactive", lamports := 9000000, sol_balance := 9000000 }

/-- A batch processor whose signing step is the embedded `signTransaction` run
that hits the Blocked terminal state. -/
def c2Proc : List StakeAccount → Except String TxInfo × List NetEvent := fun _ =>
  ((match signTransaction (.ok "tx1") [c2First, c2Blocked] with
    | .error e => .error e
    | .ok _ => .ok { txHash := "", status := "Success", errorMessage := none }), [])

def c3Items : List String := ["a", "b", "c"]

/-- Succeeds on full batches of two, fails on the trailing singleton. -/
def c3Proc : List String → Except String TxInfo × List NetEvent := fun batch =>
  if batch.length = 2 then
    (.ok { txHash := "hash1", status := "Success", errorMessage := none }, [])
  else (.error "boom", [])

def c4TenAccounts : List StakeAccount :=
  (List.range 10).map (fun i =>
    { pubkey := some (toString i), status := "active", lamports := 0, sol_balance := 0 })

def changeAuthorityConfig : EnvConfig :=
  { operation := "change-authority", fireblocksApiKey := "key",
    fireblocksApiSecretPath := "secret.key", solscanApiKey := "solscan",
    secretFileFound := fun _ => true }

def withdrawOpConfig : EnvConfig := { changeAuthorityConfig with operation := "withdraw" }

def missingKeyConfig : EnvConfig := { changeAuthorityConfig with fireblocksApiKey := "" }

def c8MatchedMsg : SignedMsg := { content := some "contentA", fullSig := some "sigA" }

def c8UnmatchedMsg : SignedMsg := { content := some "contentC", fullSig := some "sigC" }

def c8Msgs : List SignedMsg := [c8MatchedMsg, c8UnmatchedMsg]

def c8Map : List (String × TxMapEntry) :=
  [("contentA", { serializedTransaction := "contentA", stakeAccountPubKey := "StakeA" }),
   ("contentB", { serializedTransaction := "contentB", stakeAccountPubKey := "StakeB" })]

def c8Send : String → String → Except String String := fun _ _ => .ok "txidA"

def envNoVerify : RunEnv := { inertEnv with verifySignatures := fun _ => false }

def c10Item : SolscanItem :=
  { stake_account := "StakeX", sol_balance := 5000000, status := some "Active" }

def c10Items : List SolscanItem := [c10Item]

def envC10 : RunEnv :=
  { inertEnv with stakeAccountsFor := fun _ => c10Items.map transformSolscanAccount }

theorem chunkListAux_nil (n fuel : Nat) : chunkListAux n fuel ([] : List α) = [] := by
  cases fuel <;> rfl

theorem chunkListAux_fuel (m : Nat) :
    ∀ (fuel₁ : Nat) (l : List α) (fuel₂ : Nat), l.length ≤ fuel₁ → l.length ≤ fuel₂ →
      chunkListAux (m + 1) fuel₁ l = chunkListAux (m + 1) fuel₂ l := by
  intro fuel₁
  induction fuel₁ with
  | zero =>
    intro l fuel₂ h₁ _
    have : l = [] := List.length_eq_zero.mp (Nat.le_zero.mp h₁)
    subst this
    simp [chunkListAux_nil]
  | succ f ih =>
    intro l fuel₂ h₁ h₂
    cases l with
    | nil => simp [chunkListAux_nil]
    | cons x xs =>
      cases fuel₂ with
      | zero => simp at h₂
      | succ f₂ =>
        show (x :: xs).take (m + 1) :: chunkListAux (m + 1) f ((x :: xs).drop (m + 1)) =
          (x :: xs).take (m + 1) :: chunkListAux (m + 1) f₂ ((x :: xs).drop (m + 1))
        have hlen : ((x :: xs).drop (m + 1)).length ≤ f ∧
            ((x :: xs).drop (m + 1)).length ≤ f₂ := by
          simp only [List.length_drop, List.length_cons] at *
          omega
        rw [ih _ _ hlen.1 hlen.2]

theorem chunkList_nil (n : Nat) : chunkList n ([] : List α) = [] := by
  simp [chunkList, chunkListAux_nil]

theorem chunkList_cons (m : Nat) (x : α) (xs : List α) :
    chunkList (m + 1) (x :: xs) =
      (x :: xs).take (m + 1) :: chunkList (m + 1) ((x :: xs).drop (m + 1)) := by
  show (x :: xs).take (m + 1) :: chunkListAux (m + 1) xs.length ((x :: xs).drop (m + 1)) =
    (x :: xs).take (m + 1) :: chunkList (m + 1) ((x :: xs).drop (m + 1))
  rw [chunkList, chunkListAux_fuel m xs.length _ _
    (by simp only [List.length_drop, List.length_cons]; omega) le_rfl]

/-- Concatenating the slices gives back the original list (positive cap). -/
theorem chunkList_join (m : Nat) :
    ∀ l : List α, (chunkList (m + 1) l).flatten = l
  | [] => by simp [chunkList_nil]
  | x :: xs => by
    rw [chunkList_cons, List.flatten_cons,
      chunkList_join m ((x :: xs).drop (m + 1))]
    exact List.take_append_drop _ _
termination_by l => l.length
decreasing_by
  simp only [List.length_drop, List.length_cons]
  omega

/-- Every slice respects the cap (positive cap). -/
theorem chunkList_length_le (m : Nat) :
    ∀ l : List α, ∀ c ∈ chunkList (m + 1) l, c.length ≤ m + 1
  | [] => by simp [chunkList_nil]
  | x :: xs => by
    rw [chunkList_cons]
    intro c hc
    rcases List.mem_cons.mp hc with h | h
    · subst h
      simp [List.length_take]
    · exact chunkList_length_le m ((x :: xs).drop (m + 1)) c h
termination_by l => l.length
decreasing_by
  simp only [List.length_drop, List.length_cons]
  omega

/-- The slice sizes sum to the input length (positive cap). -/
theorem chunkList_sum_length (m : Nat) (l : List α) :
    ((chunkList (m + 1) l).map List.length).sum = l.length := by
  have h := congrArg List.length (chunkList_join m l)
  simpa [List.length_flatten] using h

/-- Occurrence counts are preserved by the slicing (positive cap). -/
theorem chunkList_count [DecidableEq α] (m : Nat) (l : List α) (a : α) :
    ((chunkList (m + 1) l).map (List.count a)).sum = l.count a := by
  have h := congrArg (List.count a) (chunkList_join m l)
  simpa [List.count_flatten] using h

/-- Membership in some slice is membership in the input (positive cap). -/
theorem chunkList_mem (m : Nat) (l : List α) (a : α) :
    a ∈ (chunkList (m + 1) l).flatten ↔ a ∈ l := by
  rw [chunkList_join]

theorem runBatchLoop_results (processTransaction : List α → Except String TxInfo × List NetEvent)
    (getItemIdentifier : α → String) :
    ∀ batches : List (List α),
      (runBatchLoop processTransaction getItemIdentifier batches).1.results =
        batches.map (batchOutcome processTransaction getItemIdentifier)
  | [] => rfl
  | batch :: rest => by
    simp only [runBatchLoop, List.map_cons]
    rw [← runBatchLoop_results processTransaction getItemIdentifier rest]
    unfold batchOutcome
    cases h : (processTransaction batch).1 <;> simp [h]

theorem leadsWith_self : ∀ l : List Char, leadsWith l l = true
  | [] => rfl
  | a :: as => by simp [leadsWith, leadsWith_self as]

theorem chunkOccurs_append_self (sub : List Char) :
    ∀ p : List Char, chunkOccurs sub (p ++ sub) = true
  | [] => by
    cases sub with
    | nil => rfl
    | cons b bs => simp [chunkOccurs, leadsWith_self]
  | a :: p' => by
    simp [chunkOccurs, chunkOccurs_append_self sub p']

/-- A string occurs in anything it terminates. -/
theorem strOccurs_append (p b : String) : strOccurs b (p ++ b) = true := by
  have h : (p ++ b).data = p.data ++ b.data := String.data_append p b
  simp [strOccurs, h, chunkOccurs_append_self]

theorem settleLoop_results (txDataMap : List (String × TxMapEntry))
    (send : String → String → Except String String) :
    ∀ msgs : List SignedMsg,
      (settleLoop txDataMap send msgs).1 = msgs.map (settleMessage txDataMap send)
  | [] => rfl
  | m :: ms => by
    simp [settleLoop, settleLoop_results txDataMap send ms]

/-- C1: the withdraw builder does compute `balance − 3000000` per account, but
it emits the instruction unconditionally — at a balance of 2000000 lamports it
adds a withdrawal of −1000000 (≤ 0) lamports for that account, which the claim
says must never happen.  (Evaluation of the code at the failing input.) -/
theorem c1_withdraw_builder_emits_nonpositive :
    (buildInactiveAccountsWithdrawTx [c1Account] "AuthorityAddr" "Blockhash1").instructions =
      [{ stakePubkey := "Stake2", authorizedPubkey := "AuthorityAddr",
         toPubkey := "AuthorityAddr", lamports := 2000000 - 3000000 }] ∧
    ((2000000 : Int) - 3000000) ≤ 0 := by
  exact ⟨rfl, by decide⟩

/-- C9: the broadcaster verifies before transmitting: when `verifySignatures`
rejects the reconstructed-and-signed transaction it throws
`Transaction signature verification failed` and emits no broadcast; when it
accepts, it submits the serialized signed transaction. -/
theorem c9_no_unverified_broadcast (env : RunEnv)
    (serializedMessage signatureHex signerPubKey : String) :
    (env.verifySignatures (populateWithSignature serializedMessage signatureHex signerPubKey) = false →
      sendSignedTransaction env serializedMessage signatureHex signerPubKey =
        (.error "Transaction signature verification failed", [])) ∧
    (env.verifySignatures (populateWithSignature serializedMessage signatureHex signerPubKey) = true →
      sendSignedTransaction env serializedMessage signatureHex signerPubKey =
        (env.sendRawTransaction
          (env.encodeSignedTx (populateWithSignature serializedMessage signatureHex signerPubKey)),
         [NetEvent.broadcast
          (env.encodeSignedTx (populateWithSignature serializedMessage signatureHex signerPubKey))])) := by
  constructor
  · intro h
    simp [sendSignedTransaction, h]
  · intro h
    simp [sendSignedTransaction, h]

/-- C9 witness: with a verifier that rejects everything, the broadcaster
raises the verification error and submits nothing. -/
theorem c9_no_unverified_broadcast_witness :
    sendSignedTransaction envNoVerify "serializedMsg" "sigHex" "SignerAddr" =
      (.error "Transaction signature verification failed", []) :=
  (c9_no_unverified_broadcast envNoVerify "serializedMsg" "sigHex" "SignerAddr").1 rfl

/-- C5 counterexample: a withdraw run over a non-empty listing in which no
account survives the (inactive-status) filter does not abort with a fatal
error — it returns normally with zero GroupResults. -/
theorem c5_withdraw_no_abort_cex :
    withdrawFromInactiveAccounts envWithActiveOnly "7" =
      (.ok [], [NetEvent.resolveAddress "7", NetEvent.fetchStakeAccounts "AuthorityAddr"]) ∧
    (withdrawFromInactiveAccounts envWithActiveOnly "7").1.isOk = true := by
  exact ⟨rfl, rfl⟩

/-- C7 counterexample: under operation `change-authority`, constructing with an
empty current-authority vault id and complete credentials raises nothing. -/
theorem c7_missing_current_id_accepted_cex :
    orchestratorConstruct "" "1" changeAuthorityConfig = .ok () := by
  rfl

/-- C2 counterexample: a poll run whose refetched status is Blocked with
sub-status `LOGIC_ERROR`.  The error that actually propagates out of
`signTransaction` is the generic `Transaction response is undefined`; it does
not carry the sub-status text, and the group's Failed row records the generic
text. -/
theorem c2_substatus_not_propagated_cex :
    signTransaction (.ok "tx1") [c2First, c2Blocked] =
      .error "Transaction response is undefined" ∧
    strOccurs "LOGIC_ERROR" "Transaction response is undefined" = false ∧
    (processBatchedTransactions [c2Account] MAX_ACCOUNTS_PER_WITHDRAW_TX c2Proc
      (fun account => account.pubkey.getD "")).1.results =
      [{ items := ["Stake9"], txHash := none, status := "Failed",
         errorMessage := some "Transaction response is undefined" }] := by
  exact ⟨rfl, rfl, rfl⟩

/-- C2 (amended): when the poll loop observes a failure terminal state on a
refetch it throws an error that does carry the resolver's sub-status text, but
`waitForSignature`'s catch swallows that error and returns `undefined`, so
what propagates out of `signTransaction` — and into the group's Failed record
— is the generic `Transaction response is undefined`, not the sub-status
text. -/
theorem c2_terminal_failure_generic_error (createdTxId : String)
    (first next : TxPollData) (more : List TxPollData)
    (hid : ¬ createdTxId = "")
    (hfirst : isSuccessTerminal first.status = false)
    (hnext : isFailureTerminal next.status = true) :
    pollLoop first (next :: more) = .error (terminalFailureMessage next) ∧
    strOccurs next.subStatus (terminalFailureMessage next) = true ∧
    signTransaction (.ok createdTxId) (first :: next :: more) =
      .error "Transaction response is undefined" := by
  have h1 : pollLoop first (next :: more) = .error (terminalFailureMessage next) := by
    rw [pollLoop]
    simp [hfirst, hnext]
  refine ⟨h1, ?_, ?_⟩
  · unfold terminalFailureMessage
    exact strOccurs_append _ _
  · unfold signTransaction waitForSignature
    simp [hid, h1]

/-- C2 witness: the amended theorem at the concrete Blocked run. -/
theorem c2_terminal_failure_generic_error_witness :
    pollLoop c2First [c2Blocked] = .error (terminalFailureMessage c2Blocked) ∧
    strOccurs c2Blocked.subStatus (terminalFailureMessage c2Blocked) = true ∧
    signTransaction (.ok "tx1") [c2First, c2Blocked] =
      .error "Transaction response is undefined" :=
  c2_terminal_failure_generic_error "tx1" c2First c2Blocked [] (by decide) rfl rfl

/-- C3: the batch loop records exactly one result per sliced group, in order;
a group whose processor throws yields the Failed row carrying exactly that
group's identifiers, and every group's row is a function of that group alone
(so failures never stop later groups), with the row count equal to the group
count. -/
theorem c3_batch_failure_isolation {α : Type} (items : List α) (batchSize : Nat)
    (proc : List α → Except String TxInfo × List NetEvent) (getId : α → String) :
    (processBatchedTransactions items batchSize proc getId).1.results =
      (chunkList batchSize items).map (batchOutcome proc getId) ∧
    (processBatchedTransactions items batchSize proc getId).1.results.length =
      (chunkList batchSize items).length ∧
    (∀ batch ∈ chunkList batchSize items, ∀ msg, (proc batch).1 = .error msg →
      batchOutcome proc getId batch = failureResult getId batch msg) := by
  refine ⟨runBatchLoop_results proc getId _, ?_, ?_⟩
  · rw [processBatchedTransactions, runBatchLoop_results proc getId]
    exact List.length_map _ _
  · intro batch _ msg hmsg
    unfold batchOutcome
    rw [hmsg]

/-- C3 witness: three items sliced at two; the trailing singleton's processor
fails and its Failed row carries exactly that group's identifiers. -/
theorem c3_batch_failure_isolation_witness :
    (processBatchedTransactions c3Items 2 c3Proc (fun s => s)).1.results =
      (chunkList 2 c3Items).map (batchOutcome c3Proc (fun s => s)) ∧
    batchOutcome c3Proc (fun s => s) ["c"] = failureResult (fun s => s) ["c"] "boom" :=
  ⟨(c3_batch_failure_isolation c3Items 2 c3Proc (fun s => s)).1,
   (c3_batch_failure_isolation c3Items 2 c3Proc (fun s => s)).2.2 ["c"]
     (by decide) "boom" rfl⟩

/-- C4: slicing a valid-account list into groups preserves the accounts
exactly — sizes sum to the input count, concatenation (and hence every
account's multiplicity) is preserved, no group exceeds its operation's cap
(`MAX_ACCOUNTS_PER_AUTHORITY_TX = 6`, `MAX_ACCOUNTS_PER_WITHDRAW_TX = 4`) —
and ten accounts at cap six slice into groups of sizes six and four. -/
theorem c4_grouping_partition :
    (∀ l : List StakeAccount,
      ((chunkList MAX_ACCOUNTS_PER_AUTHORITY_TX l).map List.length).sum = l.length ∧
      (chunkList MAX_ACCOUNTS_PER_AUTHORITY_TX l).flatten = l ∧
      (∀ g ∈ chunkList MAX_ACCOUNTS_PER_AUTHORITY_TX l,
        g.length ≤ MAX_ACCOUNTS_PER_AUTHORITY_TX) ∧
      (∀ a : StakeAccount,
        ((chunkList MAX_ACCOUNTS_PER_AUTHORITY_TX l).map (List.count a)).sum = l.count a)) ∧
    (∀ l : List StakeAccount,
      ((chunkList MAX_ACCOUNTS_PER_WITHDRAW_TX l).map List.length).sum = l.length ∧
      (chunkList MAX_ACCOUNTS_PER_WITHDRAW_TX l).flatten = l ∧
      (∀ g ∈ chunkList MAX_ACCOUNTS_PER_WITHDRAW_TX l,
        g.length ≤ MAX_ACCOUNTS_PER_WITHDRAW_TX) ∧
      (∀ a : StakeAccount,
        ((chunkList MAX_ACCOUNTS_PER_WITHDRAW_TX l).map (List.count a)).sum = l.count a)) ∧
    (chunkList MAX_ACCOUNTS_PER_AUTHORITY_TX c4TenAccounts).map List.length = [6, 4] := by
  refine ⟨fun l => ⟨?_, ?_, ?_, fun a => ?_⟩, fun l => ⟨?_, ?_, ?_, fun a => ?_⟩, ?_⟩
  · exact chunkList_sum_length 5 l
  · exact chunkList_join 5 l
  · exact chunkList_length_le 5 l
  · exact chunkList_count 5 l a
  · exact chunkList_sum_length 3 l
  · exact chunkList_join 3 l
  · exact chunkList_length_le 3 l
  · exact chunkList_count 3 l a
  · rfl

/-- C4 witness: the cap bound discharged at a concrete group of the concrete
ten-account slicing. -/
theorem c4_grouping_partition_witness :
    (chunkList MAX_ACCOUNTS_PER_AUTHORITY_TX c4TenAccounts).flatten = c4TenAccounts ∧
    (c4TenAccounts.take 6).length ≤ MAX_ACCOUNTS_PER_AUTHORITY_TX :=
  ⟨(c4_grouping_partition.1 c4TenAccounts).2.1,
   (c4_grouping_partition.1 c4TenAccounts).2.2.1 (c4TenAccounts.take 6) (by decide)⟩

/-- C5 (amended): for change-authority, an empty listing or an all-invalid
listing aborts the run with a fatal error before any group is built (the
trace stops at resolution + listing, and no GroupResult exists).  For
withdraw, an empty listing aborts likewise, but when accounts exist and none
passes the inactive-status filter the run returns normally with zero
GroupResults and no signing or broadcast call. -/
theorem c5_empty_input_behaviour :
    (∀ (env : RunEnv) (cur new ea na : String),
      natOptGt (parseIntNat cur) (parseIntNat new) = false →
      natOptEq (parseIntNat cur) (parseIntNat new) = false →
      env.addressForVault cur = some ea →
      env.addressForVault new = some na →
      env.stakeAccountsFor ea = [] →
      changeAuthorities env cur new =
        (.error ("No stake accounts found for address: " ++ ea),
         [NetEvent.resolveAddress cur, NetEvent.resolveAddress new,
          NetEvent.fetchStakeAccounts ea])) ∧
    (∀ (env : RunEnv) (cur new ea na : String),
      natOptGt (parseIntNat cur) (parseIntNat new) = false →
      natOptEq (parseIntNat cur) (parseIntNat new) = false →
      env.addressForVault cur = some ea →
      env.addressForVault new = some na →
      ¬ env.stakeAccountsFor ea = [] →
      (env.stakeAccountsFor ea).filter isValidAccount = [] →
      changeAuthorities env cur new =
        (.error "No valid stake accounts found",
         [NetEvent.resolveAddress cur, NetEvent.resolveAddress new,
          NetEvent.fetchStakeAccounts ea])) ∧
    (∀ (env : RunEnv) (cur aa : String),
      env.addressForVault cur = some aa →
      env.stakeAccountsFor aa = [] →
      withdrawFromInactiveAccounts env cur =
        (.error ("No stake accounts found for address: " ++ aa),
         [NetEvent.resolveAddress cur, NetEvent.fetchStakeAccounts aa])) ∧
    (∀ (env : RunEnv) (cur aa : String),
      env.addressForVault cur = some aa →
      ¬ env.stakeAccountsFor aa = [] →
      (env.stakeAccountsFor aa).filter (fun account => account.status == "inactive") = [] →
      withdrawFromInactiveAccounts env cur =
        (.ok [], [NetEvent.resolveAddress cur, NetEvent.fetchStakeAccounts aa])) := by
  refine ⟨?_, ?_, ?_, ?_⟩
  · intro env cur new ea na hgt heq h1 h2 hfetch
    simp [changeAuthorities, hgt, heq, h1, h2, hfetch]
  · intro env cur new ea na hgt heq h1 h2 hne hfilter
    simp [changeAuthorities, hgt, heq, h1, h2, List.length_eq_zero, hne, hfilter]
  · intro env cur aa h1 hfetch
    simp [withdrawFromInactiveAccounts, h1, hfetch]
  · intro env cur aa h1 hne hfilter
    simp [withdrawFromInactiveAccounts, h1, List.length_eq_zero, hne, hfilter]

/-- C5 witness: the four branches at concrete runs. -/
theorem c5_empty_input_behaviour_witness :
    changeAuthorities inertEnv "1" "2" =
      (.error ("No stake accounts found for address: " ++ "AuthorityAddr"),
       [NetEvent.resolveAddress "1", NetEvent.resolveAddress "2",
        NetEvent.fetchStakeAccounts "AuthorityAddr"]) ∧
    changeAuthorities envWithInvalidOnly "1" "2" =
      (.error "No valid stake accounts found",
       [NetEvent.resolveAddress "1", NetEvent.resolveAddress "2",
        NetEvent.fetchStakeAccounts "AuthorityAddr"]) ∧
    withdrawFromInactiveAccounts inertEnv "7" =
      (.error ("No stake accounts found for address: " ++ "AuthorityAddr"),
       [NetEvent.resolveAddress "7", NetEvent.fetchStakeAccounts "AuthorityAddr"]) ∧
    withdrawFromInactiveAccounts envWithActiveOnly "7" =
      (.ok [], [NetEvent.resolveAddress "7", NetEvent.fetchStakeAccounts "AuthorityAddr"]) :=
  ⟨c5_empty_input_behaviour.1 inertEnv "1" "2" "AuthorityAddr" "AuthorityAddr"
     rfl rfl rfl rfl rfl,
   c5_empty_input_behaviour.2.1 envWithInvalidOnly "1" "2" "AuthorityAddr" "AuthorityAddr"
     rfl rfl rfl rfl (by decide) rfl,
   c5_empty_input_behaviour.2.2.1 inertEnv "7" "AuthorityAddr" rfl rfl,
   c5_empty_input_behaviour.2.2.2 envWithActiveOnly "7" "AuthorityAddr" rfl (by decide) rfl⟩

/-- C6: when both vault ids parse and the current id is numerically ≥ the new
id, `changeAuthorities` throws one of the two vault-ordering errors with an
empty outbound-call trace — in particular before any address resolution. -/
theorem c6_vault_order_checked_before_resolution (env : RunEnv) (cur new : String)
    (c n : Nat) (hc : parseIntNat cur = some c) (hn : parseIntNat new = some n)
    (h : n ≤ c) :
    (changeAuthorities env cur new).2 = [] ∧
    ∃ msg, (changeAuthorities env cur new).1 = .error msg := by
  rcases eq_or_lt_of_le h with heq | hlt
  · have hE : changeAuthorities env cur new =
        (.error "New authority vault account has to be a different account than the current authority vault account",
         []) := by
      subst heq
      simp [changeAuthorities, hc, hn, natOptGt, natOptEq]
    rw [hE]
    exact ⟨rfl, _, rfl⟩
  · have hE : changeAuthorities env cur new =
        (.error "New authority vault account has to be a newer account than the current authority vault account",
         []) := by
      simp [changeAuthorities, hc, hn, natOptGt, natOptEq, hlt]
    rw [hE]
    exact ⟨rfl, _, rfl⟩

/-- C6 witness: vault ids 2 and 1. -/
theorem c6_vault_order_checked_before_resolution_witness :
    (changeAuthorities inertEnv "2" "1").2 = [] ∧
    ∃ msg, (changeAuthorities inertEnv "2" "1").1 = .error msg :=
  c6_vault_order_checked_before_resolution inertEnv "2" "1" 2 1 rfl rfl (by decide)

/-- C7 (amended): the constructor requires the current vault id only when the
operation is `withdraw` and the new vault id only when it is
`change-authority` (a missing current id under `change-authority`, or a
missing new id under `withdraw`, raises nothing — see the counterexample);
missing credentials always raise.  The validation is pure: it performs no
outbound call. -/
theorem c7_constructor_validation :
    (∀ (cur new : String) (env : EnvConfig),
      cur = "" → lowerString env.operation = "withdraw" →
      orchestratorConstruct cur new env = .error "Current authority vault ID is required") ∧
    (∀ (cur new : String) (env : EnvConfig),
      new = "" → lowerString env.operation = "change-authority" →
      orchestratorConstruct cur new env = .error "New authority vault ID is required") ∧
    (∀ (cur new : String) (env : EnvConfig),
      env.fireblocksApiKey = "" ∨ env.fireblocksApiSecretPath = "" ∨ env.solscanApiKey = "" →
      ∃ msg, orchestratorConstruct cur new env = .error msg) := by
  refine ⟨?_, ?_, ?_⟩
  · intro cur new env hcur hop
    simp [orchestratorConstruct, hcur, hop]
  · intro cur new env hnew hop
    simp [orchestratorConstruct, hnew, hop]
  · intro cur new env h
    by_cases h1 : cur = "" ∧ lowerString env.operation = "withdraw"
    · exact ⟨"Current authority vault ID is required", by simp [orchestratorConstruct, h1]⟩
    · by_cases h2 : new = "" ∧ lowerString env.operation = "change-authority"
      · exact ⟨"New authority vault ID is required", by simp [orchestratorConstruct, h1, h2]⟩
      · have hmiss : 0 < ((requiredEnvVars.filter
            (fun varName => envVarValue env varName = ""))).length := by
          rcases h with h | h | h
          · have hmem : "FIREBLOCKS_API_KEY" ∈ requiredEnvVars.filter
                (fun varName => envVarValue env varName = "") := by
              simp [requiredEnvVars, envVarValue, h]
            exact List.length_pos.mpr (List.ne_nil_of_mem hmem)
          · have hmem : "FIREBLOCKS_API_SECRET_PATH" ∈ requiredEnvVars.filter
                (fun varName => envVarValue env varName = "") := by
              simp [requiredEnvVars, envVarValue, h]
            exact List.length_pos.mpr (List.ne_nil_of_mem hmem)
          · have hmem : "SOLSCAN_API_KEY" ∈ requiredEnvVars.filter
                (fun varName => envVarValue env varName = "") := by
              simp [requiredEnvVars, envVarValue, h]
            exact List.length_pos.mpr (List.ne_nil_of_mem hmem)
        refine ⟨"Missing required environment variables: " ++ String.intercalate ", "
          (requiredEnvVars.filter (fun varName => envVarValue env varName = "")), ?_⟩
        simp only [orchestratorConstruct, if_neg h1, if_neg h2, validateEnvironment,
          if_pos hmiss]

/-- C7 witness: the three amended branches at concrete configurations. -/
theorem c7_constructor_validation_witness :
    orchestratorConstruct "" "1" withdrawOpConfig =
      .error "Current authority vault ID is required" ∧
    orchestratorConstruct "1" "" changeAuthorityConfig =
      .error "New authority vault ID is required" ∧
    ∃ msg, orchestratorConstruct "1" "2" missingKeyConfig = .error msg :=
  ⟨c7_constructor_validation.1 "" "1" withdrawOpConfig rfl rfl,
   c7_constructor_validation.2.1 "1" "" changeAuthorityConfig rfl rfl,
   c7_constructor_validation.2.2 "1" "2" missingKeyConfig (Or.inl rfl)⟩

/-- C8: when signatures come back, the coordinator settles exactly one row per
returned message and returns normally even on a count mismatch (which only
adds the warning line); a returned pair is matched by exact string lookup of
its content, an unmatched pair is recorded rejected with
`No matching transaction data`, and a matched pair with a signature proceeds
to broadcast and records the broadcast's outcome. -/
theorem c8_correlation_by_content
    (txDataMap : List (String × TxMapEntry)) (submittedCount : Nat)
    (msgs : List SignedMsg) (send : String → String → Except String String)
    (hne : msgs ≠ []) :
    correlateAndBroadcast txDataMap submittedCount ⟨some msgs⟩ send =
      .ok (msgs.map (settleMessage txDataMap send),
        if msgs.length ≠ submittedCount then
          ["Warning: Received " ++ toString msgs.length ++ " signatures but sent " ++
            toString submittedCount ++ " transactions"]
        else []) ∧
    (∀ m ∈ msgs, ∀ c, m.content = some c → txDataMap.lookup c = none →
      settleMessage txDataMap send m =
        { status := "rejected", reason := some "No matching transaction data",
          value := none }) ∧
    (∀ m ∈ msgs, ∀ c entry sig, m.content = some c → txDataMap.lookup c = some entry →
      m.fullSig = some sig →
      settleMessage txDataMap send m =
        (match send entry.serializedTransaction sig with
         | .ok txId => { status := "fulfilled", reason := none, value := some txId }
         | .error e => { status := "rejected", reason := some e, value := none })) := by
  refine ⟨?_, ?_, ?_⟩
  · cases msgs with
    | nil => exact absurd rfl hne
    | cons m ms =>
      simp only [correlateAndBroadcast]
      rw [settleLoop_results]
  · intro m _ c hc hlook
    simp [settleMessage, hc, hlook]
  · intro m _ c entry sig hc hlook hsig
    simp [settleMessage, hc, hlook, hsig]

/-- C8 witness: two pending contents, two returned messages of which one has
no pending match, against a submitted count of three (mismatch). -/
theorem c8_correlation_by_content_witness :
    correlateAndBroadcast c8Map 3 ⟨some c8Msgs⟩ c8Send =
      .ok (c8Msgs.map (settleMessage c8Map c8Send),
        if c8Msgs.length ≠ 3 then
          ["Warning: Received " ++ toString c8Msgs.length ++ " signatures but sent " ++
            toString (3 : Nat) ++ " transactions"]
        else []) ∧
    settleMessage c8Map c8Send c8UnmatchedMsg =
      { status := "rejected", reason := some "No matching transaction data",
        value := none } ∧
    settleMessage c8Map c8Send c8MatchedMsg =
      (match c8Send "contentA" "sigA" with
       | .ok txId => { status := "fulfilled", reason := none, value := some txId }
       | .error e => { status := "rejected", reason := some e, value := none }) :=
  ⟨(c8_correlation_by_content c8Map 3 c8Msgs c8Send (by decide)).1,
   (c8_correlation_by_content c8Map 3 c8Msgs c8Send (by decide)).2.1
     c8UnmatchedMsg (by decide) "contentC" rfl rfl,
   (c8_correlation_by_content c8Map 3 c8Msgs c8Send (by decide)).2.2
     c8MatchedMsg (by decide) "contentA"
     { serializedTransaction := "contentA", stakeAccountPubKey := "StakeA" } "sigA"
     rfl rfl rfl⟩

/-- C10: an account reaches a withdrawal group exactly when its service-side
lowercased status equals `inactive`; and when accounts exist but none is
inactive, the withdraw run returns normally with no signing request, no
broadcast and no result rows. -/
theorem c10_inactive_filter :
    (∀ (env : RunEnv) (cur addr : String) (items : List SolscanItem),
      env.addressForVault cur = some addr →
      env.stakeAccountsFor addr = items.map transformSolscanAccount →
      ∀ a : StakeAccount,
        (a ∈ (chunkList MAX_ACCOUNTS_PER_WITHDRAW_TX
            ((env.stakeAccountsFor addr).filter
              (fun account => account.status == "inactive"))).flatten
          ↔ ∃ it ∈ items, transformSolscanAccount it = a ∧
              lowerString (it.status.getD "") = "inactive")) ∧
    (∀ (env : RunEnv) (cur addr : String),
      env.addressForVault cur = some addr →
      ¬ env.stakeAccountsFor addr = [] →
      (env.stakeAccountsFor addr).filter (fun account => account.status == "inactive") = [] →
      withdrawFromInactiveAccounts env cur =
        (.ok [], [NetEvent.resolveAddress cur, NetEvent.fetchStakeAccounts addr])) := by
  constructor
  · intro env cur addr items hres hfetch a
    rw [hfetch, show MAX_ACCOUNTS_PER_WITHDRAW_TX = 3 + 1 from rfl, chunkList_mem]
    simp only [List.mem_filter, List.mem_map, beq_iff_eq]
    constructor
    · rintro ⟨⟨it, hit, rfl⟩, hstat⟩
      exact ⟨it, hit, rfl, hstat⟩
    · rintro ⟨it, hit, rfl, hstat⟩
      exact ⟨⟨it, hit, rfl⟩, hstat⟩
  · intro env cur addr h1 hne hfilter
    simp [withdrawFromInactiveAccounts, h1, List.length_eq_zero, hne, hfilter]

/-- C10 witness: a single fetched account whose raw status `Active` lowercases
to `active`, so it joins no group and the run returns normally. -/
theorem c10_inactive_filter_witness :
    ((transformSolscanAccount c10Item) ∈ (chunkList MAX_ACCOUNTS_PER_WITHDRAW_TX
        ((envC10.stakeAccountsFor "AuthorityAddr").filter
          (fun account => account.status == "inactive"))).flatten
      ↔ ∃ it ∈ c10Items, transformSolscanAccount it = transformSolscanAccount c10Item ∧
          lowerString (it.status.getD "") = "inactive") ∧
    withdrawFromInactiveAccounts envC10 "7" =
      (.ok [], [NetEvent.resolveAddress "7", NetEvent.fetchStakeAccounts "AuthorityAddr"]) :=
  ⟨c10_inactive_filter.1 envC10 "7" "AuthorityAddr" c10Items rfl rfl
     (transformSolscanAccount c10Item),
   c10_inactive_filter.2 envC10 "7" "AuthorityAddr" rfl (by decide) rfl⟩
